import Mathlib

/-!
Shallow embedding of the journey-cli publish engine (package journey,
src/journey/latest.go and the historical variants kept alongside it).

Go side effects are made explicit: the AWS session / S3 client becomes an
environment of response functions (`UploadEnv`), a Go `error` value becomes
`GoError := Option String` (`none` is Go `nil`), and every storage-touching
operation returns, next to its Go return values, the list of external calls
it performed (`UploadEvent`).  Go maps are embedded as association lists;
the source iterates map values in unspecified order, so every theorem below
is insensitive to the order of the list.
-/

/-- Model of a Go `error` value: `none` is the `nil` error. -/
abbrev GoError := Option String

/-- `Journey` represents the journey.json configuration (struct Journey in
src/journey/latest.go: Name, Version, RootID, Build, Manifest, Bucket,
JourneyPath, CDNDomain). -/
structure Journey where
  Name : String
  Version : String
  RootID : String
  Build : String
  Manifest : String
  Bucket : String
  JourneyPath : String
  CDNDomain : String
deriving DecidableEq

/-- `GetAssetPath`: the path to the asset, `j.Build + path`. -/
def Journey.GetAssetPath (j : Journey) (path : String) : String :=
  j.Build ++ path

/-- `GetAssetKey`: the key to use in the s3 bucket,
`j.Name + "/" + j.Version + "/" + path`. -/
def Journey.GetAssetKey (j : Journey) (path : String) : String :=
  j.Name ++ "/" ++ j.Version ++ "/" ++ path

/-- `GetJourneyURLPath`: the journey-urls.json path in S3. -/
def Journey.GetJourneyURLPath (j : Journey) : String :=
  j.Name ++ "/" ++ j.Version ++ "/journey-urls.json"

/-- Scanner for Go `filepath.Ext`: walks the reversed character list (so the
last character of the path first), accumulating the characters seen so far in
original order; stops with `none` at a path separator and with the extension
at the first dot.  Mirrors the Go loop
`for i := len(path)-1; i >= 0 && !os.IsPathSeparator(path[i]); i--`. -/
def extScan : List Char → List Char → Option (List Char)
  | _, [] => none
  | acc, c :: rest =>
    if c = '/' then none
    else if c = '.' then some (c :: acc)
    else extScan (c :: acc) rest

/-- Go `filepath.Ext`: the suffix beginning at the final dot in the final
slash-separated element of the path; empty when there is no dot. -/
def filepathExt (path : String) : String :=
  match extScan [] path.data.reverse with
  | none => ""
  | some cs => String.mk cs

/-- `CSS`: public data of a css object (field URL). -/
structure CSS where
  URL : String
deriving DecidableEq

/-- `JS`: public data of a js object (fields URL, RootID). -/
structure JS where
  URL : String
  RootID : String
deriving DecidableEq

/-- `Urls`: the urls of the assets being tracked (JSON fields css, js). -/
structure Urls where
  css : List CSS
  js : List JS
deriving DecidableEq

/-- The public URL the builder computes for an asset value:
`j.CDNDomain + j.GetAssetKey(v)`. -/
def assetUrl (j : Journey) (v : String) : String :=
  j.CDNDomain ++ j.GetAssetKey v

/-- One iteration of the loop body of `BuildJourneyUrls`: switch on
`filepath.Ext(v)`; `.css` appends a CSS entry, `.js` appends a JS entry
carrying the RootID, anything else is only logged and appends nothing. -/
def classifyStep (j : Journey) (acc : List CSS × List JS) (v : String) :
    List CSS × List JS :=
  let url := assetUrl j v
  let ext := filepathExt v
  if ext = ".css" then (acc.1 ++ [⟨url⟩], acc.2)
  else if ext = ".js" then (acc.1, acc.2 ++ [⟨url, j.RootID⟩])
  else acc

/-- `BuildJourneyUrls`: build the `Urls` struct from the asset manifest,
iterating over the map values (`for _, v := range assets`). -/
def Journey.BuildJourneyUrls (j : Journey) (assets : List (String × String)) :
    Urls :=
  let p := (assets.map Prod.snd).foldl (classifyStep j) ([], [])
  { css := p.1, js := p.2 }

/-- Sanity facts pinning the embedding of `filepath.Ext` to Go behaviour. -/
theorem filepathExt_spot_checks :
    filepathExt "/main.abc123.js" = ".js" ∧
    filepathExt "/main.abc123.css" = ".css" ∧
    filepathExt "/favicon.ico" = ".ico" ∧
    filepathExt "nodots" = "" ∧
    filepathExt "dir.css/file" = "" := by
  refine ⟨?_, ?_, ?_, ?_, ?_⟩ <;> decide

/-- Model of `jr.CSS` from the external journey-registry dependency, with the
fields the source populates (Url). -/
structure RegistryCSS where
  Url : String
deriving DecidableEq

/-- Model of `jr.JS` from the external journey-registry dependency, with the
fields the source populates (Url, RootID). -/
structure RegistryJS where
  Url : String
  RootID : String
deriving DecidableEq

/-- Model of `jr.Version` from the external journey-registry dependency, with
the fields the source populates (Css, Js). -/
structure RegistryVersion where
  Css : List RegistryCSS
  Js : List RegistryJS
deriving DecidableEq

/-- One iteration of the loop body of `BuildJourneyPublicUrls`, identical to
`classifyStep` except that it targets the registry types. -/
def registryStep (j : Journey) (acc : List RegistryCSS × List RegistryJS)
    (v : String) : List RegistryCSS × List RegistryJS :=
  let url := j.CDNDomain ++ j.GetAssetKey v
  let ext := filepathExt v
  if ext = ".css" then (acc.1 ++ [⟨url⟩], acc.2)
  else if ext = ".js" then (acc.1, acc.2 ++ [⟨url, j.RootID⟩])
  else acc

/-- `BuildJourneyPublicUrls`: build the `jr.Version` value from the asset
manifest, iterating over the map values. -/
def Journey.BuildJourneyPublicUrls (j : Journey)
    (assets : List (String × String)) : RegistryVersion :=
  let p := (assets.map Prod.snd).foldl (registryStep j) ([], [])
  { Css := p.1, Js := p.2 }

/-- An external call performed by the upload code: `resolve` is
`filepath.Abs`, `openFile` is `os.Open`, `put` is `uploader.Upload` with
(bucket, key, contentType). -/
inductive UploadEvent where
  | resolve (path : String)
  | openFile (abs : String)
  | put (bucket key contentType : String)
deriving DecidableEq

/-- The environment a publish run executes against: responses of the
filesystem (`abs`, `openFile`), of the S3 uploader (`upload`), of the mime
table (`mimeTypeByExtension`, empty string when the table has no entry), of
`json.Marshal` on the two URL-manifest types, and of the S3 `HeadObject`
probe (`headObject bucket key`, `none` meaning the object exists and the
probe returned no error). -/
structure UploadEnv where
  headObject : String → String → GoError
  abs : String → Except String String
  openFile : String → Except String Unit
  upload : String → String → String → GoError
  mimeTypeByExtension : String → String
  marshalVersion : RegistryVersion → GoError
  marshalUrls : Urls → GoError

/-- `getContentType`: `mime.TypeByExtension(filepath.Ext(path))` with the
fallback `application/octet-stream` when the table gives an empty answer. -/
def getContentType (mimeTypeByExtension : String → String) (path : String) :
    String :=
  let ext := filepathExt path
  let mimeType := mimeTypeByExtension ext
  if mimeType.length ≤ 0 then "application/octet-stream" else mimeType

/-- `uploadToS3`: returns the Go error value together with the external calls
performed.  Mirrors the source: return `(nil, nil)` immediately when
`len(path) <= 0`; otherwise resolve with `filepath.Abs`, open the file, and
upload with the content type derived from the absolute path. -/
def uploadToS3 (env : UploadEnv) (bucket path key : String) :
    GoError × List UploadEvent :=
  if path.length ≤ 0 then (none, [])
  else
    match env.abs path with
    | Except.error e => (some e, [UploadEvent.resolve path])
    | Except.ok abs =>
      match env.openFile abs with
      | Except.error e =>
        (some e, [UploadEvent.resolve path, UploadEvent.openFile abs])
      | Except.ok _ =>
        let ct := getContentType env.mimeTypeByExtension abs
        (env.upload bucket key ct,
         [UploadEvent.resolve path, UploadEvent.openFile abs,
          UploadEvent.put bucket key ct])

/-- The sentinel key `ValidateVersionNotUsed` probes:
`j.Name + "/" + j.Version + "/journey.json"`. -/
def sentinelKey (j : Journey) : String :=
  j.Name ++ "/" ++ j.Version ++ "/journey.json"

/-- The error message of the reserved-version branch of
`ValidateVersionNotUsed`. -/
def reservedVersionMsg (v : String) : String :=
  "Version " ++ v ++ " is a reserved version. Please update and try again"

/-- The error message of the already-exists branch of
`ValidateVersionNotUsed`. -/
def versionExistsMsg (name version : String) : String :=
  "Version " ++ name ++ "/" ++ version ++ " already exists, publishing failed"

/-- Result of the version guard: the Go `(bool, error)` return values plus
the list of `HeadObject` probes (bucket, key) the guard performed. -/
structure GuardResult where
  ok : Bool
  err : GoError
  probes : List (String × String)
deriving DecidableEq

/-- `ValidateVersionNotUsed`: validate that the version is not already in
use.  Returns `(true, ReservedVersion error)` without probing when
`j.Version == "latest"`; otherwise probes `HeadObject` on the sentinel key
and returns `(true, err)` when the probe errored (the source comment assumes
any error means the version does not exist) and `(false, already-exists
error)` when the probe succeeded. -/
def Journey.ValidateVersionNotUsed (j : Journey)
    (headObject : String → String → GoError) : GuardResult :=
  if j.Version = "latest" then
    { ok := true, err := some (reservedVersionMsg j.Version), probes := [] }
  else
    let key := sentinelKey j
    match headObject j.Bucket key with
    | some e =>
      { ok := true, err := some e, probes := [(j.Bucket, key)] }
    | none =>
      { ok := false, err := some (versionExistsMsg j.Name j.Version),
        probes := [(j.Bucket, key)] }

/-- `Urls.Publish` (historical variant, src/journey/latest.go lines 62-80):
marshal the `Urls` value and upload it to
`journey.Name + "/" + journey.Version + "/journey-urls.json"` with content
type `application/javascript`. -/
def Urls.Publish (urls : Urls) (env : UploadEnv) (j : Journey) :
    GoError × List UploadEvent :=
  let key := j.Name ++ "/" ++ j.Version ++ "/journey-urls.json"
  match env.marshalUrls urls with
  | some _ => (some "Unable to parse the journey urls into json", [])
  | none =>
    (env.upload j.Bucket key "application/javascript",
     [UploadEvent.put j.Bucket key "application/javascript"])

/-- `PublishJourneyPublicUrls` (newest variant): marshal the `jr.Version`
value and upload it to `j.GetJourneyURLPath()` with content type
`application/json`. -/
def PublishJourneyPublicUrls (env : UploadEnv) (version : RegistryVersion)
    (j : Journey) : GoError × List UploadEvent :=
  match env.marshalVersion version with
  | some _ => (some "Unable to parse the journey urls into json", [])
  | none =>
    (env.upload j.Bucket j.GetJourneyURLPath "application/json",
     [UploadEvent.put j.Bucket j.GetJourneyURLPath "application/json"])

/-- Result of `Journey.Publish`: the returned Go error plus every external
call performed by the launched upload tasks.  The Go code runs the tasks as
goroutines joined on a `sync.WaitGroup`; the model lists their calls in
launch order, and every theorem below uses only order-insensitive facts. -/
structure PublishResult where
  err : GoError
  events : List UploadEvent
deriving DecidableEq

/-- `Publish` (newest variant, src/journey/latest.go lines 331-358): run the
version guard, abort with its error when `ok` is false; otherwise build the
URL manifest, launch one `uploadToS3` per asset value, plus the asset
manifest file, the journey.json file and `PublishJourneyPublicUrls`, wait
for all of them, and return `nil` — the per-task return values of the
goroutines are discarded. -/
def Journey.Publish (j : Journey) (env : UploadEnv)
    (assets : List (String × String)) : PublishResult :=
  let g := j.ValidateVersionNotUsed env.headObject
  if g.ok then
    let version := j.BuildJourneyPublicUrls assets
    let assetRuns := assets.map fun kv =>
      uploadToS3 env j.Bucket (j.GetAssetPath kv.2) (j.GetAssetKey kv.2)
    let manifestRun :=
      uploadToS3 env j.Bucket j.Manifest (j.GetAssetKey "asset-manifest.json")
    let journeyRun :=
      uploadToS3 env j.Bucket j.JourneyPath (j.GetAssetKey "journey.json")
    let urlRun := PublishJourneyPublicUrls env version j
    { err := none,
      events := (assetRuns.map Prod.snd).flatten ++ manifestRun.2 ++
        journeyRun.2 ++ urlRun.2 }
  else
    { err := g.err, events := [] }

/-- Is this event a call to the storage client upload. -/
def isPut : UploadEvent → Bool
  | UploadEvent.put _ _ _ => true
  | _ => false

/-- Number of storage-client uploads in a call trace. -/
def putsOf (es : List UploadEvent) : Nat :=
  (es.filter isPut).length

/-- The source paths of the file-backed upload tasks `Publish` launches: one
per asset value (through `GetAssetPath`), plus the asset manifest path and
the journey.json path. -/
def taskPaths (j : Journey) (assets : List (String × String)) : List String :=
  (assets.map fun kv => j.GetAssetPath kv.2) ++ [j.Manifest, j.JourneyPath]

/-! ### Helper lemmas about the guard, the uploads and the counters -/

theorem validate_reserved (j : Journey) (hd : String → String → GoError)
    (h : j.Version = "latest") :
    j.ValidateVersionNotUsed hd =
      { ok := true, err := some (reservedVersionMsg j.Version), probes := [] } := by
  simp [Journey.ValidateVersionNotUsed, h]

theorem validate_probeErr (j : Journey) (hd : String → String → GoError)
    (e : String) (hv : j.Version ≠ "latest")
    (he : hd j.Bucket (sentinelKey j) = some e) :
    j.ValidateVersionNotUsed hd =
      { ok := true, err := some e, probes := [(j.Bucket, sentinelKey j)] } := by
  simp [Journey.ValidateVersionNotUsed, hv, he]

theorem validate_probeOk (j : Journey) (hd : String → String → GoError)
    (hv : j.Version ≠ "latest") (he : hd j.Bucket (sentinelKey j) = none) :
    j.ValidateVersionNotUsed hd =
      { ok := false, err := some (versionExistsMsg j.Name j.Version),
        probes := [(j.Bucket, sentinelKey j)] } := by
  simp [Journey.ValidateVersionNotUsed, hv, he]

theorem uploadToS3_run (env : UploadEnv) (b p k a : String)
    (hp : p.length ≠ 0) (ha : env.abs p = Except.ok a)
    (ho : env.openFile a = Except.ok ()) :
    uploadToS3 env b p k =
      (env.upload b k (getContentType env.mimeTypeByExtension a),
       [UploadEvent.resolve p, UploadEvent.openFile a,
        UploadEvent.put b k (getContentType env.mimeTypeByExtension a)]) := by
  simp [uploadToS3, Nat.le_zero, hp, ha, ho]

theorem putsOf_append (a b : List UploadEvent) :
    putsOf (a ++ b) = putsOf a + putsOf b := by
  simp [putsOf, List.filter_append]

theorem publish_guardPass (env : UploadEnv) (j : Journey)
    (assets : List (String × String))
    (hok : (j.ValidateVersionNotUsed env.headObject).ok = true) :
    j.Publish env assets =
      { err := none,
        events :=
          ((assets.map fun kv =>
            uploadToS3 env j.Bucket (j.GetAssetPath kv.2)
              (j.GetAssetKey kv.2)).map Prod.snd).flatten ++
          (uploadToS3 env j.Bucket j.Manifest
            (j.GetAssetKey "asset-manifest.json")).2 ++
          (uploadToS3 env j.Bucket j.JourneyPath
            (j.GetAssetKey "journey.json")).2 ++
          (PublishJourneyPublicUrls env (j.BuildJourneyPublicUrls assets)
            j).2 } := by
  simp only [Journey.Publish, hok, if_true]

theorem putsOf_uploadRuns (env : UploadEnv) (j : Journey) (A : String → String)
    (habs : ∀ p, env.abs p = Except.ok (A p))
    (hopen : ∀ a, env.openFile a = Except.ok ())
    (assets : List (String × String))
    (h : ∀ kv ∈ assets, (j.GetAssetPath kv.2).length ≠ 0) :
    putsOf (((assets.map fun kv =>
        uploadToS3 env j.Bucket (j.GetAssetPath kv.2)
          (j.GetAssetKey kv.2)).map Prod.snd).flatten) = assets.length := by
  induction assets with
  | nil => rfl
  | cons kv rest ih =>
    have h1 : (j.GetAssetPath kv.2).length ≠ 0 := h kv (List.mem_cons_self _ _)
    rw [List.map_cons, List.map_cons, List.flatten_cons, putsOf_append,
      uploadToS3_run env j.Bucket _ _ (A _) h1 (habs _) (hopen _),
      ih (fun x hx => h x (List.mem_cons_of_mem _ hx))]
    simp [putsOf, isPut, List.filter, Nat.add_comm]

theorem classify_foldl (j : Journey) (vs : List String) (c0 : List CSS)
    (j0 : List JS) :
    vs.foldl (classifyStep j) (c0, j0) =
      (c0 ++ (vs.filter fun v => filepathExt v = ".css").map
        (fun v => ⟨assetUrl j v⟩),
       j0 ++ (vs.filter fun v => filepathExt v = ".js").map
        (fun v => ⟨assetUrl j v, j.RootID⟩)) := by
  induction vs generalizing c0 j0 with
  | nil => simp
  | cons v vs ih =>
    by_cases hc : filepathExt v = ".css"
    · have hj : ¬ filepathExt v = ".js" := by rw [hc]; decide
      simp [classifyStep, hc, hj, ih, List.filter_cons]
    · by_cases hj : filepathExt v = ".js"
      · simp [classifyStep, hc, hj, ih, List.filter_cons]
      · simp [classifyStep, hc, hj, ih, List.filter_cons]

/-! ### Concrete fixtures used by witnesses and counterexamples -/

/-- The descriptor of the worked example of the spec (section 8). -/
def jDemo : Journey :=
  { Name := "demo", Version := "1.0.0", RootID := "app-root", Build := "",
    Manifest := "", Bucket := "", JourneyPath := "",
    CDNDomain := "https://cdn.example.com/" }

/-- The asset manifest of the worked example of the spec (section 8),
embedded as an association list; the source iterates the Go map values in
unspecified order, and every statement made about the result is
order-insensitive. -/
def demoAssets : List (String × String) :=
  [("main.js", "/main.abc123.js"), ("main.css", "/main.abc123.css"),
   ("favicon.ico", "/favicon.ico")]

/-- A fully-populated descriptor used in end-to-end runs. -/
def j2 : Journey :=
  { Name := "demo", Version := "1.0.0", RootID := "app-root",
    Build := "/build", Manifest := "/work/asset-manifest.json",
    Bucket := "bundles", JourneyPath := "/work/journey.json",
    CDNDomain := "https://cdn.example.com/" }

/-- Two-entry asset manifest used in end-to-end runs. -/
def assets2 : List (String × String) :=
  [("main.js", "/main.js"), ("main.css", "/main.css")]

/-- A small mime table standing in for `mime.TypeByExtension`. -/
def mimeTable : String → String := fun e =>
  if e = ".js" then "text/javascript; charset=utf-8"
  else if e = ".css" then "text/css; charset=utf-8"
  else if e = ".json" then "application/json"
  else ""

/-- An environment in which the sentinel probe reports not-found and every
filesystem and storage operation succeeds. -/
def envOk : UploadEnv :=
  { headObject := fun _ _ => some "NotFound: Not Found status code: 404",
    abs := Except.ok,
    openFile := fun _ => Except.ok (),
    upload := fun _ _ _ => none,
    mimeTypeByExtension := mimeTable,
    marshalVersion := fun _ => none,
    marshalUrls := fun _ => none }

/-- Like `envOk`, except that opening `/build/main.css` fails: exactly one of
the five upload tasks of a two-asset publish fails. -/
def envFail1 : UploadEnv :=
  { envOk with
    openFile := fun a =>
      if a = "/build/main.css" then
        Except.error "open /build/main.css: no such file or directory"
      else Except.ok () }

/-- Descriptor with a non-reserved version, used against guard probes. -/
def jGuard : Journey :=
  { Name := "demo", Version := "2.0.0", RootID := "app-root",
    Build := "/build", Manifest := "/work/asset-manifest.json",
    Bucket := "bundles", JourneyPath := "/work/journey.json",
    CDNDomain := "https://cdn.example.com/" }

/-- A probe that fails with a transient network error, not a not-found. -/
def hdNetErr : String → String → GoError := fun _ _ =>
  some "RequestError: send request failed caused by: connection refused"

/-- A probe that reports the sentinel object present (no error). -/
def hdExists : String → String → GoError := fun _ _ => none

/-- A probe that fails with a definitive not-found error. -/
def hdNotFound : String → String → GoError := fun _ _ =>
  some "NotFound: Not Found status code: 404"

/-- Descriptor whose version is the reserved token. -/
def jLatest : Journey :=
  { Name := "demo", Version := "latest", RootID := "app-root",
    Build := "/build", Manifest := "/work/asset-manifest.json",
    Bucket := "bundles", JourneyPath := "/work/journey.json",
    CDNDomain := "https://cdn.example.com/" }

/-! ### Claim theorems -/

/-- Claim C1, counterexample: on a transient probe failure that is clearly
not a not-found (a connection-refused network error), the guard nevertheless
returns ok = true, granting permission to publish — it does not fail with a
ProbeError as the claim requires. -/
theorem guard_grants_publish_on_transient_probe_error :
    (jGuard.ValidateVersionNotUsed hdNetErr).ok = true ∧
    (jGuard.ValidateVersionNotUsed hdNetErr).err =
      some "RequestError: send request failed caused by: connection refused" :=
  ⟨rfl, rfl⟩

/-- Claim C1, amended: for every descriptor whose version is not the
reserved token, every probe failure — not-found or otherwise — makes
ValidateVersionNotUsed succeed (ok = true) with the probe error attached;
the code is fail-open and draws no ProbeError distinction; only a probe
that reports the object present makes the guard deny publishing. -/
theorem guard_failOpen_on_any_probe_error (j : Journey)
    (hd : String → String → GoError) (e : String)
    (hv : j.Version ≠ "latest") (he : hd j.Bucket (sentinelKey j) = some e) :
    j.ValidateVersionNotUsed hd =
      { ok := true, err := some e, probes := [(j.Bucket, sentinelKey j)] } :=
  validate_probeErr j hd e hv he

/-- Witness for claim C1 at the concrete transient-error probe. -/
theorem guard_failOpen_on_any_probe_error_check :
    jGuard.ValidateVersionNotUsed hdNetErr =
      { ok := true,
        err := some
          "RequestError: send request failed caused by: connection refused",
        probes := [("bundles", "demo/2.0.0/journey.json")] } :=
  guard_failOpen_on_any_probe_error jGuard hdNetErr
    "RequestError: send request failed caused by: connection refused"
    (by decide) rfl

/-- Claim C2, counterexample: with the two-asset manifest, exactly one of
the five upload tasks fails to open its source file, yet Publish returns
the nil error (success) — there is no aggregate error; the other four
tasks still performed their uploads (four storage puts). -/
theorem publish_succeeds_despite_failed_task :
    (j2.Publish envFail1 assets2).err = none ∧
    (uploadToS3 envFail1 j2.Bucket (j2.GetAssetPath "/main.css")
      (j2.GetAssetKey "/main.css")).1 =
      some "open /build/main.css: no such file or directory" ∧
    putsOf (j2.Publish envFail1 assets2).events = 4 :=
  ⟨rfl, rfl, rfl⟩

/-- Claim C2, amended: the coordinator does wait for every task (the
WaitGroup barrier), but the per-task results of the goroutines are
discarded: once the version guard passes, Publish always returns the nil
error, whatever the individual tasks did; no aggregate upload error
exists. -/
theorem publish_discards_task_errors (env : UploadEnv) (j : Journey)
    (assets : List (String × String)) (e : String)
    (hv : j.Version ≠ "latest")
    (hhead : env.headObject j.Bucket (sentinelKey j) = some e) :
    (j.Publish env assets).err = none := by
  have hok : (j.ValidateVersionNotUsed env.headObject).ok = true := by
    rw [validate_probeErr j env.headObject e hv hhead]
  rw [publish_guardPass env j assets hok]

/-- Witness for claim C2 at the concrete one-task-fails run. -/
theorem publish_discards_task_errors_check :
    (j2.Publish envFail1 assets2).err = none :=
  publish_discards_task_errors envFail1 j2 assets2
    "NotFound: Not Found status code: 404" (by decide) rfl

/-- Claim C3 (code bug): with the reserved version "latest" the guard does
return the reserved-version error and attempts no probe, but its boolean is
true — the only value the caller checks — so Publish proceeds and uploads
all five objects under demo/latest/ instead of being blocked. -/
theorem reserved_version_latest_not_blocked :
    jLatest.ValidateVersionNotUsed envOk.headObject =
      { ok := true, err := some (reservedVersionMsg "latest"),
        probes := [] } ∧
    (jLatest.Publish envOk assets2).err = none ∧
    putsOf (jLatest.Publish envOk assets2).events = 5 :=
  ⟨rfl, rfl, rfl⟩

/-- Claim C4: for every descriptor with a non-reserved version, a probe
reporting the sentinel present makes the guard deny publishing (ok = false)
with the already-exists error naming name and version, and a probe failure
(the not-found case) makes the guard succeed (ok = true). -/
theorem guard_conflict_when_present_free_when_absent (j : Journey)
    (hd : String → String → GoError) (hv : j.Version ≠ "latest") :
    (hd j.Bucket (sentinelKey j) = none →
      j.ValidateVersionNotUsed hd =
        { ok := false, err := some (versionExistsMsg j.Name j.Version),
          probes := [(j.Bucket, sentinelKey j)] }) ∧
    (∀ e, hd j.Bucket (sentinelKey j) = some e →
      (j.ValidateVersionNotUsed hd).ok = true) := by
  constructor
  · intro he
    exact validate_probeOk j hd hv he
  · intro e he
    rw [validate_probeErr j hd e hv he]

/-- Witness for claim C4 at a present probe and at a not-found probe. -/
theorem guard_conflict_when_present_free_when_absent_check :
    jGuard.ValidateVersionNotUsed hdExists =
      { ok := false,
        err := some "Version demo/2.0.0 already exists, publishing failed",
        probes := [("bundles", "demo/2.0.0/journey.json")] } ∧
    (jGuard.ValidateVersionNotUsed hdNotFound).ok = true :=
  ⟨(guard_conflict_when_present_free_when_absent jGuard hdExists
      (by decide)).1 rfl,
   (guard_conflict_when_present_free_when_absent jGuard hdNotFound
      (by decide)).2 "NotFound: Not Found status code: 404" rfl⟩

/-- Claim C5, counterexample: on the worked example the only JS entry the
builder produces carries a double slash between the version segment and the
file name (the manifest values begin with a slash and GetAssetKey appends
its own), so no entry has the URL the claim states. -/
theorem buildJourneyUrls_demo_urls_differ :
    (jDemo.BuildJourneyUrls demoAssets).js =
      [⟨"https://cdn.example.com/demo/1.0.0//main.abc123.js", "app-root"⟩] ∧
    "https://cdn.example.com/demo/1.0.0//main.abc123.js" ≠
      "https://cdn.example.com/demo/1.0.0/main.abc123.js" :=
  ⟨rfl, by decide⟩

/-- Claim C5, amended: on the worked example BuildJourneyUrls returns
exactly one JS entry with URL
https://cdn.example.com/demo/1.0.0//main.abc123.js (double slash) and
rootID app-root, exactly one CSS entry with URL
https://cdn.example.com/demo/1.0.0//main.abc123.css (double slash), and no
entry for favicon.ico. -/
theorem buildJourneyUrls_demo_result :
    jDemo.BuildJourneyUrls demoAssets =
      { css := [⟨"https://cdn.example.com/demo/1.0.0//main.abc123.css"⟩],
        js := [⟨"https://cdn.example.com/demo/1.0.0//main.abc123.js",
               "app-root"⟩] } :=
  rfl

/-- Claim C6: BuildJourneyUrls classifies every asset-manifest value by its
file extension: the CSS entries are exactly the values with extension .css,
each holding its public URL; the JS entries are exactly the values with
extension .js, each holding its public URL and the descriptor rootID; every
value with any other extension contributes no entry at all. -/
theorem buildJourneyUrls_classifies_by_extension (j : Journey)
    (assets : List (String × String)) :
    (j.BuildJourneyUrls assets).css =
      ((assets.map Prod.snd).filter fun v => filepathExt v = ".css").map
        (fun v => ⟨assetUrl j v⟩) ∧
    (j.BuildJourneyUrls assets).js =
      ((assets.map Prod.snd).filter fun v => filepathExt v = ".js").map
        (fun v => ⟨assetUrl j v, j.RootID⟩) := by
  constructor
  · simp [Journey.BuildJourneyUrls, classify_foldl]
  · simp [Journey.BuildJourneyUrls, classify_foldl]

/-- Claim C7: when the version guard reports the version free (the probe
errors), every task path is non-empty and resolution, open, upload and
marshalling all succeed, Publish returns the nil error and performs exactly
one storage upload per asset entry plus three more (asset-manifest.json,
journey.json and the serialized URL manifest). -/
theorem publish_uploads_assets_plus_three (env : UploadEnv) (j : Journey)
    (assets : List (String × String)) (e : String) (A : String → String)
    (hv : j.Version ≠ "latest")
    (hhead : env.headObject j.Bucket (sentinelKey j) = some e)
    (habs : ∀ p, env.abs p = Except.ok (A p))
    (hopen : ∀ a, env.openFile a = Except.ok ())
    (_hup : ∀ b k c, env.upload b k c = none)
    (hmar : ∀ v, env.marshalVersion v = none)
    (hpaths : ∀ p ∈ taskPaths j assets, p.length ≠ 0) :
    (j.Publish env assets).err = none ∧
    putsOf (j.Publish env assets).events = assets.length + 3 := by
  have hok : (j.ValidateVersionNotUsed env.headObject).ok = true := by
    rw [validate_probeErr j env.headObject e hv hhead]
  rw [publish_guardPass env j assets hok]
  refine ⟨rfl, ?_⟩
  have hman : j.Manifest.length ≠ 0 := by
    refine hpaths _ ?_
    exact List.mem_append_right _ (by simp)
  have hjp : j.JourneyPath.length ≠ 0 := by
    refine hpaths _ ?_
    exact List.mem_append_right _ (by simp)
  have hassets : ∀ kv ∈ assets, (j.GetAssetPath kv.2).length ≠ 0 := by
    intro kv hkv
    refine hpaths _ ?_
    exact List.mem_append_left _ (List.mem_map_of_mem _ hkv)
  simp only [putsOf_append,
    putsOf_uploadRuns env j A habs hopen assets hassets,
    uploadToS3_run env j.Bucket j.Manifest (j.GetAssetKey
      "asset-manifest.json") (A j.Manifest) hman (habs _) (hopen _),
    uploadToS3_run env j.Bucket j.JourneyPath (j.GetAssetKey
      "journey.json") (A j.JourneyPath) hjp (habs _) (hopen _),
    PublishJourneyPublicUrls, hmar]
  simp [putsOf, isPut, List.filter]

/-- Witness for claim C7: the two-asset run against the all-success
environment returns the nil error and performs exactly five storage
uploads. -/
theorem publish_uploads_assets_plus_three_check :
    (j2.Publish envOk assets2).err = none ∧
    putsOf (j2.Publish envOk assets2).events = 5 :=
  publish_uploads_assets_plus_three envOk j2 assets2
    "NotFound: Not Found status code: 404" id (by decide) rfl
    (fun _ => rfl) (fun _ => rfl) (fun _ _ _ => rfl) (fun _ => rfl)
    (by decide)

/-- Claim C8 (code bug): the historical Urls.Publish uploads the serialized
URL manifest to the right key name/version/journey-urls.json but with
content type application/javascript, not application/json; the newest
variant, PublishJourneyPublicUrls, uses the same key with content type
application/json. -/
theorem urlsPublish_contentType_javascript :
    (jDemo.BuildJourneyUrls demoAssets).Publish envOk j2 =
      (none, [UploadEvent.put "bundles" "demo/1.0.0/journey-urls.json"
        "application/javascript"]) ∧
    "application/javascript" ≠ "application/json" ∧
    PublishJourneyPublicUrls envOk (j2.BuildJourneyPublicUrls assets2) j2 =
      (none, [UploadEvent.put "bundles" "demo/1.0.0/journey-urls.json"
        "application/json"]) :=
  ⟨rfl, by decide, rfl⟩

/-- Claim C9: an upload task whose source path is the empty string returns
the nil error immediately and performs no external call at all — no path
resolution, no file open, no storage upload. -/
theorem uploadToS3_skips_empty_path (env : UploadEnv) (bucket key : String) :
    uploadToS3 env bucket "" key = (none, []) :=
  rfl

/-- Claim C10: ValidateVersionNotUsed never returns the nil error — success
is signalled only by the boolean — and on its success path (any probe
error) it returns ok = true together with the probe error itself. -/
theorem guard_ok_true_with_nonNil_error (j : Journey)
    (hd : String → String → GoError) :
    (j.ValidateVersionNotUsed hd).err.isSome = true ∧
    (∀ e, j.Version ≠ "latest" → hd j.Bucket (sentinelKey j) = some e →
      (j.ValidateVersionNotUsed hd).ok = true ∧
      (j.ValidateVersionNotUsed hd).err = some e) := by
  constructor
  · by_cases h : j.Version = "latest"
    · rw [validate_reserved j hd h]
      rfl
    · cases hhd : hd j.Bucket (sentinelKey j) with
      | none => rw [validate_probeOk j hd h hhd]; rfl
      | some e => rw [validate_probeErr j hd e h hhd]; rfl
  · intro e hv he
    rw [validate_probeErr j hd e hv he]
    exact ⟨rfl, rfl⟩

/-- Witness for claim C10 at the concrete transient-error probe: the error
is non-nil while ok is true. -/
theorem guard_ok_true_with_nonNil_error_check :
    (jGuard.ValidateVersionNotUsed hdNetErr).err.isSome = true ∧
    (jGuard.ValidateVersionNotUsed hdNetErr).ok = true ∧
    (jGuard.ValidateVersionNotUsed hdNetErr).err =
      some "RequestError: send request failed caused by: connection refused" :=
  ⟨(guard_ok_true_with_nonNil_error jGuard hdNetErr).1,
   (guard_ok_true_with_nonNil_error jGuard hdNetErr).2
     "RequestError: send request failed caused by: connection refused"
     (by decide) rfl⟩
